import Mathlib

/-
Verification of the skeenode coordination core: a shallow embedding of the
store operations (pkg/storage/postgres/job_store.go), the scheduler core
(pkg/scheduler, dispatch / reconcile / retry), and the executor result path
(pkg/executor/core.go, pkg/executor/runner).

Modelling conventions:
- Timestamps and durations are rational numbers of seconds (Go time.Time and
  time.Duration are int64 nanoseconds; the rationals embed them exactly, and
  the float64 arithmetic of calculateBackoff is modelled over the rationals).
- UUIDs are natural numbers drawn from a fresh-id counter.
- SQL comparisons against NULL follow three-valued logic: a WHERE predicate
  keeps a row only when it evaluates to true, so a comparison with a NULL
  column never selects the row (sqlLe, sqlGe, sqlNotIn below).
- GORM details that matter are modelled where they occur: the `default:1`
  tag on Execution.Attempt (a zero value is replaced by the database default
  on insert), and RowsAffected checks exactly where the Go code makes them.
- Transient infrastructure errors (connection failures) are outside the
  model; the Except results cover only the domain errors the code produces.
-/

namespace Skeenode

/-! ## Data model (pkg/models, src/unnamed/part_010) -/

/-- Job lifecycle status (models.JobStatus). -/
inductive JobStatus where
  | active
  | paused
  | archived
deriving DecidableEq, Repr

/-- Execution lifecycle status (models.ExecutionStatus). -/
inductive ExecutionStatus where
  | pending
  | running
  | success
  | failed
  | cancelled
deriving DecidableEq, Repr

/-- Retry policy (models.RetryPolicy). The interval fields hold the result of
time.ParseDuration on the stored strings, in seconds: none models a parse
error, some d a successful parse (calculateBackoff applies its defaults to
both a parse error and a zero duration). MaxRetries is a Go int. -/
structure RetryPolicy where
  maxRetries : Int
  backoffStrategy : String
  initialInterval : Option ℚ
  maxInterval : Option ℚ
deriving DecidableEq, Repr

/-- Job (models.Job). Fields not touched by the embedded operations
(owner, resource constraints, created/updated/deleted timestamps) are
omitted. nextRunAt is nullable, exactly as the *time.Time column. -/
structure Job where
  id : ℕ
  name : String
  schedule : String
  command : String
  retryPolicy : RetryPolicy
  status : JobStatus
  nextRunAt : Option ℚ
deriving DecidableEq, Repr

/-- Execution (models.Execution). nodeId, startedAt, completedAt are the
nullable columns; attempt and exitCode are Go ints; jobCommand is the
transient transport-only field. -/
structure Execution where
  id : ℕ
  jobId : ℕ
  nodeId : Option String
  scheduledAt : ℚ
  startedAt : Option ℚ
  completedAt : Option ℚ
  status : ExecutionStatus
  attempt : Int
  exitCode : Int
  outputUri : String
  jobCommand : String
deriving DecidableEq, Repr

/-! ## SQL three-valued comparison helpers

A row with a NULL column never satisfies a comparison predicate in a WHERE
clause: `NULL <= x`, `NULL >= x` and `NULL NOT IN (...)` all evaluate to
unknown, and the row is not selected. -/

/-- SQL `col <= v` for a nullable column. -/
def sqlLe (col : Option ℚ) (v : ℚ) : Bool :=
  match col with
  | none => false
  | some t => decide (t ≤ v)

/-- SQL `col >= v` for a nullable column. -/
def sqlGe (col : Option ℚ) (v : ℚ) : Bool :=
  match col with
  | none => false
  | some t => decide (v ≤ t)

/-- SQL `col NOT IN (list)` for a nullable column and a non-empty list:
NULL NOT IN (...) is unknown, hence does not select the row. -/
def sqlNotIn (col : Option String) (l : List String) : Bool :=
  match col with
  | none => false
  | some s => !(l.contains s)

/-! ## Store (pkg/storage/postgres/job_store.go) -/

/-- Domain errors surfaced by the store (storage.ErrNotFound, and the
uniqueness violation on execution insert). -/
inductive StoreErr where
  | notFound
  | conflict
deriving DecidableEq, Repr

/-- Ordering used by `ORDER BY next_run_at asc` (rows reaching the sort all
have a non-NULL next_run_at; NULLs are ordered last for totality). -/
def jobDueLe (a b : Job) : Bool :=
  match a.nextRunAt, b.nextRunAt with
  | some x, some y => decide (x ≤ y)
  | some _, none => true
  | none, _ => false

/-- Ordering used by `ORDER BY completed_at desc` (NULLs last). -/
def execCompletedGe (a b : Execution) : Bool :=
  match a.completedAt, b.completedAt with
  | some x, some y => decide (y ≤ x)
  | some _, none => true
  | none, _ => false

/-- ListDueJobs (job_store.go:101):
`SELECT * FROM jobs WHERE status = 'ACTIVE' AND next_run_at <= now
 ORDER BY next_run_at ASC LIMIT limit`. -/
def listDueJobs (jobs : List Job) (now : ℚ) (limit : ℕ) : List Job :=
  (((jobs.filter fun j => decide (j.status = .active) && sqlLe j.nextRunAt now).mergeSort
      jobDueLe).take limit)

/-- UpdateNextRun (job_store.go:119): single-field update; RowsAffected = 0
is reported as ErrNotFound. -/
def updateNextRun (jobs : List Job) (id : ℕ) (nextRun : ℚ) :
    Except StoreErr (List Job) :=
  if jobs.any fun j => decide (j.id = id) then
    .ok (jobs.map fun j => if j.id = id then { j with nextRunAt := some nextRun } else j)
  else
    .error .notFound

/-- CreateExecution (job_store.go:135) together with the schema facts it runs
against: the primary key on id, the unique index on (job_id, scheduled_at)
(idx_job_scheduled), and the GORM `default:1` tag on Attempt, under which an
inserted zero value is replaced by the database default and refetched into
the struct (Postgres RETURNING). Returns the stored row and the new table. -/
def createExecution (execs : List Execution) (e : Execution) :
    Except StoreErr (Execution × List Execution) :=
  if execs.any fun x =>
      decide (x.id = e.id) ||
      (decide (x.jobId = e.jobId) && decide (x.scheduledAt = e.scheduledAt)) then
    .error .conflict
  else
    let stored := { e with attempt := if e.attempt = 0 then 1 else e.attempt }
    .ok (stored, execs ++ [stored])

/-- UpdateRunState (job_store.go:144): sets status=RUNNING, node_id,
started_at on the matching row. RowsAffected is not inspected: a missing id
is a silent no-op and the call still returns ok. -/
def updateRunState (execs : List Execution) (id : ℕ) (nodeId : String)
    (startedAt : ℚ) : Except StoreErr (List Execution) :=
  .ok (execs.map fun x =>
    if x.id = id then
      { x with status := .running, nodeId := some nodeId, startedAt := some startedAt }
    else x)

/-- UpdateResult (job_store.go:161): sets status, exit_code, output_uri and
completed_at=now on the matching row. There is no guard on the current
status, and RowsAffected is not inspected: the update applies to the row
with the given id whatever its state, and the call always returns ok. -/
def updateResult (execs : List Execution) (id : ℕ) (status : ExecutionStatus)
    (exitCode : Int) (outputUri : String) (now : ℚ) :
    Except StoreErr (List Execution) :=
  .ok (execs.map fun x =>
    if x.id = id then
      { x with status := status, exitCode := exitCode,
               outputUri := outputUri, completedAt := some now }
    else x)

/-- The WHERE clause of MarkOrphansAsFailed (job_store.go:180):
status = RUNNING, and when the active list is non-empty additionally
node_id NOT IN activeNodeIDs (three-valued: a NULL node_id is not selected). -/
def isOrphan (activeNodeIDs : List String) (x : Execution) : Bool :=
  decide (x.status = .running) &&
    (activeNodeIDs.isEmpty || sqlNotIn x.nodeId activeNodeIDs)

/-- MarkOrphansAsFailed (job_store.go:180): updates every selected row to
status=FAILED, exit_code=-1, completed_at=now and returns RowsAffected. -/
def markOrphansAsFailed (execs : List Execution) (activeNodeIDs : List String)
    (now : ℚ) : List Execution × ℕ :=
  ((execs.map fun x =>
      if isOrphan activeNodeIDs x then
        { x with status := .failed, exitCode := -1, completedAt := some now }
      else x),
   (execs.filter (isOrphan activeNodeIDs)).length)

/-- ListRecentFailures (job_store.go:202):
`WHERE status = 'FAILED' AND completed_at >= since
 ORDER BY completed_at desc LIMIT limit`. -/
def listRecentFailures (execs : List Execution) (since : ℚ) (limit : ℕ) :
    List Execution :=
  (((execs.filter fun x => decide (x.status = .failed) && sqlGe x.completedAt since).mergeSort
      execCompletedGe).take limit)

/-! ## Scheduler core (pkg/scheduler, src/unnamed/part_007) -/

/-- The reconcile ticker period: `time.NewTicker(30 * time.Second)`
(part_007:86), in seconds. -/
def reconcileInterval : ℚ := 30

/-- The retry look-back computed by RetryFailures (part_007:174):
`since := time.Now().Add(-2 * time.Minute)`, in seconds. -/
def retrySince (now : ℚ) : ℚ := now - 120

/-- The batch limit RetryFailures passes to ListRecentFailures
(part_007:175). -/
def retryLimit : ℕ := 20

/-- The set of failures one reconcile tick's retry engine examines
(part_007:174-175). -/
def retryScan (execs : List Execution) (now : ℚ) : List Execution :=
  listRecentFailures execs (retrySince now) retryLimit

/-- The effective initial interval used by calculateBackoff
(part_007:54-57): 5 seconds when the stored string fails to parse or
parses to zero. -/
def effInitial (policy : RetryPolicy) : ℚ :=
  match policy.initialInterval with
  | none => 5
  | some x => if x = 0 then 5 else x

/-- The effective max interval used by calculateBackoff (part_007:60-63):
5 minutes when the stored string fails to parse or parses to zero. -/
def effMax (policy : RetryPolicy) : ℚ :=
  match policy.maxInterval with
  | none => 300
  | some x => if x = 0 then 300 else x

/-- calculateBackoff (part_007:52-78): exponential backoff
`initial * 2^attempt`, capped at the max interval, followed by a ±20%
jitter `(r - 0.5) * 0.4 * backoff` for the drawn `r = rand.Float64()`.
The float64 arithmetic is modelled over the rationals. -/
def calculateBackoff (attempt : Int) (policy : RetryPolicy) (r : ℚ) : ℚ :=
  let initial := effInitial policy
  let maxInterval := effMax policy
  let backoff := initial * (2 : ℚ) ^ attempt
  let backoff := if backoff > maxInterval then maxInterval else backoff
  let jitter := (r - 1/2) * (2/5) * backoff
  backoff + jitter

/-- From the spec's words, for comparison with calculateBackoff: the
pre-jitter delay `d = min(max_interval, initial_interval * 2^attempt)`. -/
def specPreJitterDelay (attempt : Int) (policy : RetryPolicy) : ℚ :=
  min (effMax policy) (effInitial policy * (2 : ℚ) ^ attempt)

/-- One iteration of the RetryFailures loop for a given failure and its job
(part_007:196-214): no retry when `failure.Attempt >= MaxRetries`; otherwise
a new PENDING execution with `attempt = failure.Attempt + 1`, scheduled at
`now + backoff`, carrying the job's current command. -/
def retryStep (failure : Execution) (job : Job) (newId : ℕ) (now backoff : ℚ) :
    Option Execution :=
  if failure.attempt ≥ job.retryPolicy.maxRetries then none
  else some
    { id := newId
      jobId := job.id
      nodeId := none
      scheduledAt := now + backoff
      startedAt := none
      completedAt := none
      status := .pending
      attempt := failure.attempt + 1
      exitCode := 0
      outputUri := ""
      jobCommand := job.command }

/-- The attempt numbers of the retries generated for an always-failing job,
starting after a failure with attempt number a: the retry guard and
increment of retryStep iterated until the guard stops the chain. -/
def retryAttempts (maxRetries : Int) (a : Int) : List Int :=
  if a < maxRetries then (a + 1) :: retryAttempts maxRetries (a + 1) else []
termination_by (maxRetries - a).toNat
decreasing_by omega

/-- The attempt numbers of all executions of an always-failing job: the
original dispatch stores attempt 1 (the Attempt `default:1` column default,
since PollAndSchedule inserts the zero value), and every failure below the
policy bound spawns a retry with the next attempt number. -/
def failChainAttempts (maxRetries : Int) : List Int :=
  1 :: retryAttempts maxRetries 1

/-! ### Dispatch (PollAndSchedule, part_007:236-331)

The Go code dispatches the due batch in parallel under a bounded worker
pool; per job the effects are create_execution, then queue push, then
update_next_run. The embedding linearises the batch into a left fold. The
cron library and the AI predictor are modelled as parameters: nextOcc
returns the next occurrence of a schedule string after now (none models a
parse error), and abortOf tells whether the predictor answered ABORT (a
predictor error fails open, i.e. abortOf is false for it). -/

/-- Scheduler-visible state: the jobs table, the executions table, the
queue contents, and the fresh-id source standing for uuid.New(). -/
structure SchedState where
  jobs : List Job
  execs : List Execution
  queue : List Execution
  nextId : ℕ
deriving DecidableEq, Repr

/-- The updateNextRun helper (part_007:333-348): parse the schedule (on
error, log and leave next_run_at unchanged), compute the next occurrence
after now, write it with UpdateNextRun (a not-found result is logged and
swallowed). -/
def updateNextRunStep (nextOcc : String → ℚ → Option ℚ) (j : Job) (now : ℚ)
    (st : SchedState) : SchedState :=
  match nextOcc j.schedule now with
  | none => st
  | some t =>
    match updateNextRun st.jobs j.id t with
    | .ok jobs' => { st with jobs := jobs' }
    | .error _ => st

/-- Dispatch of one due job inside PollAndSchedule (part_007:267-324).
On ABORT the execution is skipped but next_run_at still advances. Otherwise
the code dereferences `*j.NextRunAt` unconditionally — none models that nil
dereference (a crash). On a CreateExecution error (the duplicate conflict)
the goroutine logs and returns: no push and no update_next_run. On success
the stored execution is pushed and next_run_at advances. -/
def dispatchJob (nextOcc : String → ℚ → Option ℚ) (abort : Bool) (now : ℚ)
    (j : Job) (st : SchedState) : Option SchedState :=
  if abort then some (updateNextRunStep nextOcc j now st)
  else
    match j.nextRunAt with
    | none => none
    | some sched =>
      let st' := { st with nextId := st.nextId + 1 }
      let e : Execution :=
        { id := st.nextId
          jobId := j.id
          nodeId := none
          scheduledAt := sched
          startedAt := none
          completedAt := none
          status := .pending
          attempt := 0
          exitCode := 0
          outputUri := ""
          jobCommand := j.command }
      match createExecution st.execs e with
      | .error _ => some st'
      | .ok (stored, execs') =>
        some (updateNextRunStep nextOcc j now
          { st' with execs := execs', queue := st.queue ++ [stored] })

/-- Sequential fold of dispatchJob over a batch of due jobs; a crash in any
dispatch aborts the tick (Option.none). -/
def dispatchAll (nextOcc : String → ℚ → Option ℚ) (abortOf : Job → Bool)
    (now : ℚ) : List Job → SchedState → Option SchedState
  | [], st => some st
  | j :: rest, st =>
    match dispatchJob nextOcc (abortOf j) now j st with
    | none => none
    | some st' => dispatchAll nextOcc abortOf now rest st'

/-- PollAndSchedule (part_007:236-331): list the due jobs (batch 500),
dispatch each, return the number of jobs in the batch. -/
def pollAndSchedule (nextOcc : String → ℚ → Option ℚ) (abortOf : Job → Bool)
    (now : ℚ) (st : SchedState) : Option (SchedState × ℕ) :=
  let due := listDueJobs st.jobs now 500
  (dispatchAll nextOcc abortOf now due st).map fun st' => (st', due.length)

/-- One dispatch-ticker firing in Run (part_007:94-121): query the election
for the current leader value; an error skips the tick, but the returned
value itself is discarded (`_ = leader`, part_007:102) — PollAndSchedule
runs whatever value was observed. The Except argument is the Leader(ctx)
result; selfValue is this scheduler's own election value. -/
def dispatchTick (nextOcc : String → ℚ → Option ℚ) (abortOf : Job → Bool)
    (now : ℚ) (_selfValue : String) (leaderRes : Except Unit String)
    (st : SchedState) : Option SchedState :=
  match leaderRes with
  | .error _ => some st
  | .ok _observedLeader =>
    (pollAndSchedule nextOcc abortOf now st).map Prod.fst

/-! ## Executor result path (pkg/executor/core.go, pkg/executor/runner) -/

/-- The value of ctx.Err() observed by ShellRunner.Run after cmd.Run
returns: nil, context.Canceled, or context.DeadlineExceeded. -/
inductive CtxErr where
  | noErr
  | canceled
  | deadlineExceeded
deriving DecidableEq, Repr

/-- The classification of the error cmd.Run returns: nil (the process ran
and exited with status 0), an exec.ExitError carrying the exit code the OS
reported (ExitCode() is -1 for a signal-killed process), or another error
such as a start failure. -/
inductive CmdRunErr where
  | noErr
  | exitError (code : Int)
  | otherError
deriving DecidableEq, Repr

/-- The exit code before the deadline adjustment (runner part of
observability/tracing.go, lines 205-214): 0 when cmd.Run returned nil, the
ExitError's code, and -1 for any other error. -/
def rawExitCode (e : CmdRunErr) : Int :=
  match e with
  | .noErr => 0
  | .exitError k => k
  | .otherError => -1

/-- ShellRunner.Run's recorded exit code (tracing.go lines 205-223): the raw
exit code, forced to -1 when the context deadline was exceeded and the raw
code is 0. -/
def shellRunExitCode (e : CmdRunErr) (c : CtxErr) : Int :=
  let x := rawExitCode e
  if c = .deadlineExceeded ∧ x = 0 then -1 else x

/-- The status consumeOne records from the runner result
(executor/core.go:153-156): SUCCESS unless the exit code is non-zero. -/
def consumeStatus (exitCode : Int) : ExecutionStatus :=
  if exitCode ≠ 0 then .failed else .success

/-! ## Shared helper lemmas -/

/-- Membership in listDueJobs forces the ACTIVE status and a satisfied
(hence non-NULL) due-time comparison. -/
theorem listDueJobs_mem_pred {jobs : List Job} {now : ℚ} {limit : ℕ} {j : Job}
    (h : j ∈ listDueJobs jobs now limit) :
    j.status = .active ∧ sqlLe j.nextRunAt now = true := by
  have h1 : j ∈ (jobs.filter fun j => decide (j.status = .active) && sqlLe j.nextRunAt now) := by
    have := List.mem_of_mem_take h
    exact List.mem_mergeSort.mp this
  have h2 := (List.mem_filter.mp h1).2
  simpa using h2

/-- A satisfied SQL comparison means the column is non-NULL. -/
theorem sqlLe_isSome {col : Option ℚ} {v : ℚ} (h : sqlLe col v = true) :
    col.isSome := by
  cases col with
  | none => simp [sqlLe] at h
  | some t => rfl

/-- Membership in listRecentFailures forces the FAILED status and a
satisfied completed-at comparison. -/
theorem listRecentFailures_mem_pred {execs : List Execution} {since : ℚ}
    {limit : ℕ} {x : Execution} (h : x ∈ listRecentFailures execs since limit) :
    x.status = .failed ∧ sqlGe x.completedAt since = true := by
  have h1 : x ∈ (execs.filter fun x => decide (x.status = .failed) && sqlGe x.completedAt since) := by
    have := List.mem_of_mem_take h
    exact List.mem_mergeSort.mp this
  have h2 := (List.mem_filter.mp h1).2
  simpa using h2

/-! ## C3 — terminality of update_result -/

/-- A terminal (SUCCESS) execution, as left behind by a completed run. -/
def execDone : Execution :=
  { id := 1, jobId := 1, nodeId := some "n1", scheduledAt := 0,
    startedAt := some 1, completedAt := some 2, status := .success,
    attempt := 1, exitCode := 0, outputUri := "u0", jobCommand := "echo hi" }

/-- C3 counterexample: update_result is not a no-op on an execution that is
already terminal. Applied to a SUCCESS execution, it overwrites status,
exit_code, output_uri and completed_at — the terminal status SUCCESS
transitions to FAILED. -/
theorem updateResult_overwrites_terminal :
    updateResult [execDone] 1 .failed 7 "u1" 9
      = .ok [{ execDone with
                 status := .failed, exitCode := 7,
                 outputUri := "u1", completedAt := some 9 }]
    ∧ updateResult [execDone] 1 .failed 7 "u1" 9 ≠ .ok [execDone]
    ∧ execDone.status = .success := by
  refine ⟨rfl, ?_, rfl⟩
  simp [updateResult, execDone]

/-- C3 (amended): update_result unconditionally sets status, exit_code,
output_uri and completed_at=now on the execution with the given id,
whatever its current status — there is no terminal guard, so a terminal
status can transition — and leaves every other execution unchanged. -/
theorem updateResult_unconditional (execs : List Execution) (id : ℕ)
    (status : ExecutionStatus) (code : Int) (uri : String) (now : ℚ) (i : ℕ) :
    ((updateResult execs id status code uri now).toOption.bind fun l => l[i]?)
      = execs[i]?.map fun x =>
          if x.id = id then
            { x with status := status, exitCode := code,
                     outputUri := uri, completedAt := some now }
          else x := by
  simp [updateResult, Except.toOption]

/-! ## C9 — update_run_state / update_result result values -/

/-- C9 counterexample: called on a store holding no execution at all,
update_run_state and update_result both return ok, not not_found — the
missing id is a silent no-op (RowsAffected is never inspected). -/
theorem updateRunState_missing_id_ok :
    updateRunState [] 1 "n1" 0 = .ok []
    ∧ updateRunState [] 1 "n1" 0 ≠ .error .notFound
    ∧ updateResult [] 1 .failed 1 "u" 0 = .ok []
    ∧ updateResult [] 1 .failed 1 "u" 0 ≠ .error .notFound := by
  refine ⟨rfl, by simp [updateRunState], rfl, by simp [updateResult]⟩

/-- C9 (amended): update_run_state and update_result always return ok —
a missing execution id is a silent no-op, never not_found. When the
execution exists, update_run_state sets status=RUNNING with the given
node_id and started_at, and update_result sets the given terminal status,
exit_code, output_uri and completed_at=now. -/
theorem updateRunState_updateResult_always_ok (execs : List Execution)
    (id : ℕ) (node : String) (t : ℚ) (status : ExecutionStatus) (code : Int)
    (uri : String) (now : ℚ) (i : ℕ) :
    (updateRunState execs id node t).isOk = true
    ∧ (updateResult execs id status code uri now).isOk = true
    ∧ ((updateRunState execs id node t).toOption.bind fun l => l[i]?)
        = execs[i]?.map (fun x =>
            if x.id = id then
              { x with status := .running, nodeId := some node,
                       startedAt := some t }
            else x)
    ∧ ((updateResult execs id status code uri now).toOption.bind fun l => l[i]?)
        = execs[i]?.map fun x =>
            if x.id = id then
              { x with status := status, exitCode := code,
                       outputUri := uri, completedAt := some now }
            else x := by
  refine ⟨rfl, rfl, ?_, ?_⟩ <;> simp [updateRunState, updateResult, Except.toOption]

/-! ## C4 — mark_orphans_as_failed -/

/-- A RUNNING execution whose node_id column is NULL. -/
def runningNullNode : Execution :=
  { id := 2, jobId := 1, nodeId := none, scheduledAt := 0,
    startedAt := some 1, completedAt := none, status := .running,
    attempt := 1, exitCode := 0, outputUri := "", jobCommand := "" }

/-- C4 counterexample: with a non-empty active list, a RUNNING execution
with a NULL node_id — whose node id value is certainly not in the list —
is left unchanged (SQL `node_id NOT IN (...)` is unknown on NULL) and is
not counted, contradicting the claim that exactly the RUNNING executions
whose node_id is not in the list are failed. -/
theorem markOrphans_skips_null_node :
    markOrphansAsFailed [runningNullNode] ["n1"] 5 = ([runningNullNode], 0)
    ∧ runningNullNode.status = .running
    ∧ runningNullNode.nodeId = none := by
  refine ⟨?_, rfl, rfl⟩
  decide

/-- C4 (amended): mark_orphans_as_failed sets status=FAILED, exit_code=-1
and completed_at=now for exactly those executions whose status is RUNNING
and which, when the active list is non-empty, carry a non-NULL node_id that
is not in the list (a NULL node_id row survives the SQL NOT IN); for the
empty list every RUNNING execution is failed. Every other execution is
unchanged and the count of updated rows is returned. -/
theorem markOrphans_characterization (execs : List Execution)
    (active : List String) (now : ℚ) (i : ℕ) (x : Execution) :
    (markOrphansAsFailed execs active now).1[i]?
      = execs[i]?.map (fun y =>
          if isOrphan active y then
            { y with status := .failed, exitCode := -1, completedAt := some now }
          else y)
    ∧ (markOrphansAsFailed execs active now).2
        = (execs.filter (isOrphan active)).length
    ∧ (isOrphan active x = true ↔
        x.status = .running ∧
          (active = [] ∨ ∃ s, x.nodeId = some s ∧ s ∉ active)) := by
  refine ⟨by simp [markOrphansAsFailed], rfl, ?_⟩
  cases hx : x.nodeId with
  | none => simp [isOrphan, sqlNotIn, hx, List.isEmpty_iff]
  | some s =>
    simp [isOrphan, sqlNotIn, hx, List.isEmpty_iff]

/-! ## C10 — due jobs have next_run_at set; dispatch dereference is safe -/

/-- dispatchJob only crashes (returns none) on a job with a NULL
next_run_at and a non-ABORT decision. -/
theorem dispatchJob_isSome_of_nextRun {j : Job} (nextOcc : String → ℚ → Option ℚ)
    (abort : Bool) (now : ℚ) (st : SchedState) (h : j.nextRunAt.isSome) :
    (dispatchJob nextOcc abort now j st).isSome := by
  cases abort with
  | true => simp [dispatchJob]
  | false =>
    cases hn : j.nextRunAt with
    | none => rw [hn] at h; simp at h
    | some sched =>
      simp only [dispatchJob, Bool.false_eq_true, if_false, hn]
      cases createExecution st.execs _ with
      | error _ => simp
      | ok p => simp

/-- The dispatch fold stays crash-free when every job in the batch has a
non-NULL next_run_at. -/
theorem dispatchAll_isSome (nextOcc : String → ℚ → Option ℚ)
    (abortOf : Job → Bool) (now : ℚ) :
    ∀ (L : List Job) (st : SchedState), (∀ j ∈ L, j.nextRunAt.isSome) →
      (dispatchAll nextOcc abortOf now L st).isSome := by
  intro L
  induction L with
  | nil => intro st _; simp [dispatchAll]
  | cons j rest ih =>
    intro st hL
    have hj : (dispatchJob nextOcc (abortOf j) now j st).isSome :=
      dispatchJob_isSome_of_nextRun nextOcc (abortOf j) now st (hL j (by simp))
    rcases Option.isSome_iff_exists.mp hj with ⟨st', hst'⟩
    simp only [dispatchAll, hst']
    exact ih st' fun x hx => hL x (by simp [hx])

/-- C10: every job returned by list_due_jobs has a non-nil next_run_at
(the WHERE clause `status = 'ACTIVE' AND next_run_at <= now` cannot select
a NULL next_run_at), so the dispatch path's unconditional dereference of
job.NextRunAt never encounters a null for jobs obtained from list_due_jobs:
PollAndSchedule never reaches the nil-dereference crash. -/
theorem listDueJobs_nextRun_nonnull_dispatch_safe (jobs : List Job) (now : ℚ)
    (limit : ℕ) (nextOcc : String → ℚ → Option ℚ) (abortOf : Job → Bool)
    (st : SchedState) :
    ((listDueJobs jobs now limit).all fun j => j.nextRunAt.isSome) = true
    ∧ (pollAndSchedule nextOcc abortOf now st).isSome = true := by
  constructor
  · rw [List.all_eq_true]
    intro j hj
    have := (listDueJobs_mem_pred hj).2
    simpa using sqlLe_isSome this
  · have hall : ∀ j ∈ listDueJobs st.jobs now 500, j.nextRunAt.isSome := by
      intro j hj
      exact sqlLe_isSome (listDueJobs_mem_pred hj).2
    have := dispatchAll_isSome nextOcc abortOf now (listDueJobs st.jobs now 500) st hall
    simp only [pollAndSchedule]
    rcases Option.isSome_iff_exists.mp this with ⟨st', hst'⟩
    simp [hst']

/-! ## C2 — leadership is not actually compared at tick start -/

/-- A minimal active job, due at time 0. -/
def jobHi : Job :=
  { id := 1, name := "hello", schedule := "* * * * *", command := "echo hi",
    retryPolicy := { maxRetries := 0, backoffStrategy := "exponential",
                     initialInterval := some 1, maxInterval := some 10 },
    status := .active, nextRunAt := some 0 }

/-- Scheduler state with one due job and nothing else. -/
def st0 : SchedState := { jobs := [jobHi], execs := [], queue := [], nextId := 5 }

/-- Cron stub: every schedule's next occurrence is the instant t=60. -/
def cronStub : String → ℚ → Option ℚ := fun _ _ => some 60

/-- Predictor stub: never ABORT. -/
def noAbort : Job → Bool := fun _ => false

/-- C2 evidence: a dispatch tick in which the election reports another
node's value as leader still performs the full dispatch — an execution row
is created, a queue push happens, and next_run_at is advanced — because Run
discards the observed leader value (`_ = leader`) and only an election
error skips the tick. The claimed no-op does not happen. -/
theorem dispatchTick_ignores_observed_leader :
    "other-node" ≠ "me"
    ∧ (dispatchTick cronStub noAbort 0 "me" (.ok "other-node") st0).map
        (fun s => (s.execs.length, s.queue.length, s.jobs.map Job.nextRunAt))
      = some (1, 1, [some 60])
    ∧ (dispatchTick cronStub noAbort 0 "me" (.error ()) st0) = some st0 := by
  refine ⟨by simp, ?_, rfl⟩
  have hdue : listDueJobs st0.jobs 0 500 = [jobHi] := by
    simp [listDueJobs, st0, jobHi, sqlLe]
  simp only [dispatchTick, pollAndSchedule, hdue]
  rfl

/-! ## C5 — create_execution conflict skips update_next_run too -/

/-- An active job due at t=100. -/
def jobC5 : Job :=
  { id := 1, name := "dup", schedule := "* * * * *", command := "exit 1",
    retryPolicy := { maxRetries := 0, backoffStrategy := "exponential",
                     initialInterval := some 1, maxInterval := some 10 },
    status := .active, nextRunAt := some 100 }

/-- A pre-existing execution for the same (job_id, scheduled_at) pair, as
left behind by another scheduler replica. -/
def execPrior : Execution :=
  { id := 9, jobId := 1, nodeId := none, scheduledAt := 100,
    startedAt := none, completedAt := none, status := .pending,
    attempt := 1, exitCode := 0, outputUri := "", jobCommand := "" }

/-- State in which dispatching jobC5 hits the uniqueness conflict. -/
def stC5 : SchedState :=
  { jobs := [jobC5], execs := [execPrior], queue := [], nextId := 10 }

/-- C5 counterexample: when create_execution hits the duplicate
(job_id, scheduled_at) conflict, the dispatch goroutine logs and returns
immediately: the queue push is skipped, but so is update_next_run — the
job's next_run_at stays 100 even though the cron library would have
produced 60 for this tick. Only the fresh-id draw is consumed. -/
theorem dispatch_conflict_skips_updateNextRun :
    dispatchJob cronStub false 0 jobC5 stC5 = some { stC5 with nextId := 11 }
    ∧ (({ stC5 with nextId := 11 } : SchedState)).jobs.map Job.nextRunAt = [some 100]
    ∧ (({ stC5 with nextId := 11 } : SchedState)).queue = []
    ∧ cronStub jobC5.schedule 0 = some 60
    ∧ some (60 : ℚ) ≠ some (100 : ℚ) := by
  refine ⟨rfl, rfl, rfl, rfl, by decide⟩

/-- C5 (amended): during a dispatch tick, a create_execution failure for a
due job — in particular the duplicate (job_id, scheduled_at) conflict — is
swallowed without aborting the tick, but the whole remainder of that job's
dispatch is skipped: neither the queue push nor update_next_run happens,
and the job's next_run_at is left unchanged. -/
theorem dispatchJob_conflict_skips_rest (nextOcc : String → ℚ → Option ℚ)
    (now sched : ℚ) (j : Job) (st : SchedState)
    (hn : j.nextRunAt = some sched)
    (hc : (st.execs.any fun x =>
        decide (x.id = st.nextId) ||
        (decide (x.jobId = j.id) && decide (x.scheduledAt = sched))) = true) :
    dispatchJob nextOcc false now j st = some { st with nextId := st.nextId + 1 } := by
  simp only [dispatchJob, Bool.false_eq_true, if_false, hn, createExecution, hc, if_true]

/-- C5 witness: the conflict hypotheses hold in the concrete state stC5 and
the amended conclusion follows by the theorem. -/
theorem dispatchJob_conflict_skips_rest_witness :
    jobC5.nextRunAt = some 100
    ∧ (stC5.execs.any fun x =>
        decide (x.id = stC5.nextId) ||
        (decide (x.jobId = jobC5.id) && decide (x.scheduledAt = (100 : ℚ)))) = true
    ∧ dispatchJob cronStub false 0 jobC5 stC5
        = some { stC5 with nextId := stC5.nextId + 1 } :=
  ⟨rfl, by decide,
    dispatchJob_conflict_skips_rest cronStub 0 100 jobC5 stC5 rfl (by decide)⟩

/-! ## C1 — the retry chain of an always-failing job -/

/-- Elements of the retry chain started after a failure with attempt a are
exactly the attempt numbers in (a, maxRetries]. -/
theorem mem_retryAttempts (m : Int) :
    ∀ (n : ℕ) (a x : Int), (m - a).toNat = n →
      (x ∈ retryAttempts m a ↔ a < x ∧ x ≤ m) := by
  intro n
  induction n with
  | zero =>
    intro a x h
    rw [retryAttempts]
    have hm : ¬ a < m := by omega
    simp only [hm, if_false, List.not_mem_nil, false_iff]
    omega
  | succ k ih =>
    intro a x h
    rw [retryAttempts]
    by_cases hm : a < m
    · simp only [hm, if_true, List.mem_cons, ih (a + 1) x (by omega)]
      omega
    · simp only [hm, if_false, List.not_mem_nil, false_iff]
      omega

/-- C1 counterexample: for max_retries = 2 and a command that always
fails, the code produces exactly two executions — the original dispatch
(attempt 1, the database default filled in by create_execution) and one
retry (attempt 2): a failure with attempt 2 is already at the
`failure.Attempt >= MaxRetries` guard, so no execution with attempt 3 is
ever created, contradicting the claimed three executions. -/
theorem failChain_two_retries_is_two_executions :
    failChainAttempts 2 = [1, 2]
    ∧ (failChainAttempts 2).length = 2
    ∧ (3 : Int) ∉ failChainAttempts 2 := by
  have h : failChainAttempts 2 = [1, 2] := by
    rw [failChainAttempts, retryAttempts]
    norm_num
    rw [retryAttempts]
    norm_num
  refine ⟨h, by simp [h], by rw [h]; decide⟩

/-- C1 (amended): the original dispatch stores attempt = 1 and each retry
stores attempt = failure.attempt + 1, created only while
failure.attempt < retry_policy.max_retries; hence the attempt numbers of
an always-failing job's executions are exactly 1 and the integers in
(1, max_retries] — for max_retries = 2, exactly two executions (attempts 1
and 2) and no third attempt. -/
theorem retry_chain_rule (f : Execution) (job : Job) (newId : ℕ)
    (now backoff : ℚ) (e : Execution) (m x : Int) :
    ((retryStep f job newId now backoff).map Execution.attempt
        = if f.attempt < job.retryPolicy.maxRetries
          then some (f.attempt + 1) else none)
    ∧ ((createExecution [] { e with attempt := 0 }).map fun p => p.1.attempt)
        = .ok 1
    ∧ (x ∈ failChainAttempts m ↔ x = 1 ∨ (1 < x ∧ x ≤ m))
    ∧ failChainAttempts 2 = [1, 2] := by
  refine ⟨?_, rfl, ?_, ?_⟩
  · by_cases h : f.attempt < job.retryPolicy.maxRetries
    · have h' : ¬ f.attempt ≥ job.retryPolicy.maxRetries := by omega
      simp [retryStep, h, h']
    · have h' : f.attempt ≥ job.retryPolicy.maxRetries := by omega
      simp [retryStep, h, h']
  · rw [failChainAttempts]
    simp only [List.mem_cons, mem_retryAttempts m (m - 1).toNat 1 x rfl]
  · rw [failChainAttempts, retryAttempts]
    norm_num
    rw [retryAttempts]
    norm_num

/-! ## C7 — the retry engine's look-back window and batch limit -/

/-- C7 counterexample: the look-back RetryFailures computes is two minutes,
not 2 * reconcile_interval = 60 seconds: at now = 0 the window starts at
-120, not at -60. -/
theorem retrySince_is_two_minutes :
    retrySince 0 = -120
    ∧ reconcileInterval = 30
    ∧ retrySince 0 ≠ 0 - 2 * reconcileInterval := by
  refine ⟨by rw [retrySince]; norm_num, rfl, ?_⟩
  rw [retrySince, reconcileInterval]
  norm_num

/-- C7 (amended): on every reconcile tick the retry engine scans FAILED
executions whose completed_at is at or after now - 120 s (a fixed
two-minute look-back, i.e. 4 * the 30-second reconcile interval), reading
at most 20 of them. -/
theorem retryScan_window (execs : List Execution) (now : ℚ) :
    retrySince now = now - 4 * reconcileInterval
    ∧ (retryScan execs now).length ≤ 20
    ∧ ((retryScan execs now).all fun f =>
        decide (f.status = .failed) && sqlGe f.completedAt (now - 120)) = true := by
  refine ⟨?_, ?_, ?_⟩
  · rw [retrySince, reconcileInterval]; norm_num
  · rw [retryScan, listRecentFailures]
    exact List.length_take_le _ _
  · rw [List.all_eq_true]
    intro f hf
    have h := listRecentFailures_mem_pred hf
    have h2 := h.2
    rw [retrySince] at h2
    simp [h.1, h2]

/-! ## C6 — exponential backoff with jitter -/

/-- The cap in calculateBackoff is the min with the max interval. -/
theorem capEq (x m : ℚ) : (if x > m then m else x) = min m x := by
  by_cases h : x > m
  · simp only [h, if_true]
    exact (min_eq_left (le_of_lt h)).symm
  · simp only [h, if_false]
    exact (min_eq_right (not_lt.mp h)).symm

/-- C6: the retry delay equals
d = min(max_interval, initial_interval * 2^attempt) plus a jitter of at
most 20% of d in magnitude (rand.Float64() is drawn from [0,1)); attempt 0
yields exactly d = initial_interval before jitter when the policy's initial
interval does not exceed its max interval, and every attempt's pre-jitter
delay is capped at max_interval. -/
theorem calculateBackoff_spec (k : Int) (policy : RetryPolicy) (r : ℚ)
    (hr0 : 0 ≤ r) (hr1 : r < 1) (hi : 0 < effInitial policy)
    (him : effInitial policy ≤ effMax policy) :
    calculateBackoff k policy r
        = specPreJitterDelay k policy
          + (r - 1/2) * (2/5) * specPreJitterDelay k policy
    ∧ |calculateBackoff k policy r - specPreJitterDelay k policy|
        ≤ specPreJitterDelay k policy / 5
    ∧ specPreJitterDelay k policy ≤ effMax policy
    ∧ specPreJitterDelay 0 policy = effInitial policy := by
  have hform : calculateBackoff k policy r
      = specPreJitterDelay k policy
        + (r - 1/2) * (2/5) * specPreJitterDelay k policy := by
    unfold calculateBackoff specPreJitterDelay
    simp only []
    rw [capEq]
  have hpos : 0 < specPreJitterDelay k policy := by
    unfold specPreJitterDelay
    exact lt_min (lt_of_lt_of_le hi him)
      (mul_pos hi (zpow_pos (by norm_num) k))
  refine ⟨hform, ?_, min_le_left _ _, ?_⟩
  · have hd : calculateBackoff k policy r - specPreJitterDelay k policy
        = (r - 1/2) * ((2/5) * specPreJitterDelay k policy) := by
      rw [hform]; ring
    rw [hd, abs_mul]
    have habs : |r - 1/2| ≤ 1/2 := abs_le.mpr ⟨by linarith, by linarith⟩
    have h25 : |(2/5) * specPreJitterDelay k policy|
        = (2/5) * specPreJitterDelay k policy :=
      abs_of_pos (by positivity)
    rw [h25]
    nlinarith [hpos, habs, abs_nonneg (r - 1/2)]
  · unfold specPreJitterDelay
    rw [zpow_zero, mul_one]
    exact min_eq_right him

/-- A representative retry policy: initial 1 s, max 10 s. -/
def polW : RetryPolicy :=
  { maxRetries := 2, backoffStrategy := "exponential",
    initialInterval := some 1, maxInterval := some 10 }

/-- C6 witness: the backoff contract instantiated at attempt 0, the polW
policy, and the median random draw r = 1/2. -/
theorem calculateBackoff_spec_witness :
    ((0 : ℚ) ≤ 1/2 ∧ (1 : ℚ)/2 < 1 ∧ 0 < effInitial polW
      ∧ effInitial polW ≤ effMax polW)
    ∧ (calculateBackoff 0 polW (1/2)
          = specPreJitterDelay 0 polW
            + ((1 : ℚ)/2 - 1/2) * (2/5) * specPreJitterDelay 0 polW
      ∧ |calculateBackoff 0 polW (1/2) - specPreJitterDelay 0 polW|
          ≤ specPreJitterDelay 0 polW / 5
      ∧ specPreJitterDelay 0 polW ≤ effMax polW
      ∧ specPreJitterDelay 0 polW = effInitial polW) :=
  ⟨⟨by norm_num, by norm_num, by norm_num [effInitial, polW],
    by norm_num [effInitial, effMax, polW]⟩,
   calculateBackoff_spec 0 polW (1/2) (by norm_num) (by norm_num)
     (by norm_num [effInitial, polW]) (by norm_num [effInitial, effMax, polW])⟩

/-! ## C8 — executor status and exit-code classification -/

/-- C8: for a consumed execution, SUCCESS is recorded iff the recorded exit
code is 0, the run context was not cancelled, and there was no start error;
otherwise FAILED. The recorded exit code is the process's exit code for
normal termination and -1 for timeout or start failure. The side conditions
state the Go exec semantics the run outcome obeys: a cancelled or expired
context kills the process, so cmd.Run does not return nil (hkill); cmd.Run
yields an exec.ExitError only for an unsuccessful exit (hnz); a deadline
kill surfaces as SIGKILL, whose ExitCode() is -1 (hdead). -/
theorem executor_status_rule (e : CmdRunErr) (c : CtxErr)
    (hkill : c ≠ .noErr → e ≠ .noErr)
    (hnz : e ≠ .exitError 0)
    (hdead : c = .deadlineExceeded → e = .exitError (-1)) :
    (consumeStatus (shellRunExitCode e c) = .success ↔
      (shellRunExitCode e c = 0 ∧ c = .noErr ∧ e ≠ .otherError))
    ∧ ((c = .deadlineExceeded ∨ e = .otherError) → shellRunExitCode e c = -1)
    ∧ (c = .noErr → shellRunExitCode e c = rawExitCode e) := by
  cases e <;> cases c <;>
    simp_all [shellRunExitCode, rawExitCode, consumeStatus]

/-- C8 witness: the status rule instantiated at a normally-terminated
process with exit code 3 and an undisturbed context. -/
theorem executor_status_rule_witness :
    ((CtxErr.noErr ≠ CtxErr.noErr → CmdRunErr.exitError 3 ≠ CmdRunErr.noErr)
      ∧ CmdRunErr.exitError 3 ≠ CmdRunErr.exitError 0
      ∧ (CtxErr.noErr = CtxErr.deadlineExceeded →
          CmdRunErr.exitError 3 = CmdRunErr.exitError (-1)))
    ∧ ((consumeStatus (shellRunExitCode (.exitError 3) .noErr) = .success ↔
          (shellRunExitCode (.exitError 3) .noErr = 0
            ∧ CtxErr.noErr = CtxErr.noErr
            ∧ CmdRunErr.exitError 3 ≠ CmdRunErr.otherError))
      ∧ ((CtxErr.noErr = CtxErr.deadlineExceeded
            ∨ CmdRunErr.exitError 3 = CmdRunErr.otherError) →
          shellRunExitCode (.exitError 3) .noErr = -1)
      ∧ (CtxErr.noErr = CtxErr.noErr →
          shellRunExitCode (.exitError 3) .noErr = rawExitCode (.exitError 3))) :=
  ⟨⟨by decide, by decide, by decide⟩,
   executor_status_rule (.exitError 3) .noErr (by decide) (by decide) (by decide)⟩

end Skeenode
